import Mathlib

/-!
Shallow embedding of the SchnorrSecp256k1Signature2019 repository
(`src/SchnorrSecp256k1VerificationKey2019.ts` and the custom JSON-LD
document loader). JavaScript objects holding JWK material are modelled as
association lists of string key/value pairs; the distinguished JavaScript
values `undefined` and `null` that a field typed `any` can take are
modelled by an explicit sum type. External collaborators (the Schnorr
primitive `SchnorrES256K.signDetached` / `verifyDetached`, the RFC 7638
thumbprint `keyUtils.getKid`, and `JSON.parse` composed with
`base64url.decode`) are parameters of the definitions that call them.
-/

/-- A JWK-shaped JavaScript object: its own enumerable string-valued
properties in insertion order. Produced by object spread and JSON parsing,
so keys are pairwise distinct in intended use; `erase` removes every
occurrence of a key, matching the JavaScript `delete` operator on such
objects. -/
abbrev Jwk := List (String × String)

/-- Removing a property from a JWK object, as the JavaScript `delete`
operator does on an object without duplicate keys. -/
def Jwk.erase (j : Jwk) (k : String) : Jwk :=
  j.filter (fun p => !(p.1 == k))

/-- Whether the object has an own property named `k`. -/
def Jwk.hasKey (j : Jwk) (k : String) : Bool :=
  j.any (fun p => p.1 == k)

/-- The values a TypeScript field of type `any` holding key material can
take in this code base: `undefined` (field absent), `null` (explicitly
supplied empty value), or a JWK-shaped object. -/
inductive JsVal where
  | undef : JsVal
  | null : JsVal
  | obj : Jwk → JsVal
deriving DecidableEq

/-- JavaScript truthiness of a `JsVal`: every object is truthy (including
the empty object), `undefined` and `null` are falsy. -/
def jsTruthy : JsVal → Bool
  | JsVal.obj _ => true
  | _ => false

/-- JavaScript object spread `{...v}`: copies own properties of an object;
spreading `undefined` or `null` yields the empty object. -/
def JsVal.spread : JsVal → Jwk
  | JsVal.obj j => j
  | _ => []

/-- Whether a `JsVal` is an object owning a property named `k`. -/
def JsVal.hasField (v : JsVal) (k : String) : Bool :=
  match v with
  | JsVal.obj j => j.hasKey k
  | _ => false

/-- The options record accepted by the
`SchnorrSecp256k1VerificationKey2019` constructor
(`ISchnorrSecp256k1VerificationKey2019Options`). Optional string fields
use `Option String`, with `none` for `undefined`. -/
structure KeyOptions where
  id : Option String
  type : Option String
  controller : String
  privateKeyJwk : JsVal
  publicKeyJwk : JsVal
deriving DecidableEq

/-- The constructed `SchnorrSecp256k1VerificationKey2019` instance fields. -/
structure VerificationKey where
  id : String
  type : String
  controller : String
  privateKeyJwk : JsVal
  publicKeyJwk : JsVal
deriving DecidableEq

/-- JavaScript `x || y` for a possibly-undefined string `x`: the empty
string is falsy and falls through to the default. -/
def jsOrString (x : Option String) (d : String) : String :=
  match x with
  | some s => if s == "" then d else s
  | none => d

/-- The static method `fingerprintFromPublicKey`: copies the supplied
`publicKeyJwk`, deletes `kid`, and delegates to the thumbprint
collaborator `keyUtils.getKid` (a parameter here). -/
def fingerprintFromPublicKey (getKid : Jwk → String) (publicKeyJwk : JsVal) : String :=
  getKid ((JsVal.spread publicKeyJwk).erase "kid")

/-- The instance method `fingerprint`: the same computation applied to
`this.publicKeyJwk`. -/
def VerificationKey.fingerprint (key : VerificationKey) (getKid : Jwk → String) : String :=
  getKid ((JsVal.spread key.publicKeyJwk).erase "kid")

/-- The class constructor: records the fields, defaults `type`, derives
`publicKeyJwk` from `privateKeyJwk` by spread-and-delete-`d` exactly when
the supplied `publicKeyJwk` is `undefined`, and defaults `id` to
`controller + "#" + this.fingerprint()` when `options.id` is falsy. -/
def mkKey (getKid : Jwk → String) (options : KeyOptions) : VerificationKey :=
  let controller := options.controller
  let type := jsOrString options.type "SchnorrSecp256k1VerificationKey2019"
  let privateKeyJwk := options.privateKeyJwk
  let publicKeyJwk :=
    if options.publicKeyJwk = JsVal.undef then
      JsVal.obj ((JsVal.spread privateKeyJwk).erase "d")
    else options.publicKeyJwk
  let id := jsOrString options.id
    (controller ++ "#" ++ getKid ((JsVal.spread publicKeyJwk).erase "kid"))
  { id := id, type := type, controller := controller,
    privateKeyJwk := privateKeyJwk, publicKeyJwk := publicKeyJwk }

/-- The characters of a string before the first occurrence of the
separator character list, the whole string when the separator does not
occur. -/
def takeUntilSep : List Char → List Char → List Char
  | [], _ => []
  | c :: cs, sep => if sep.isPrefixOf (c :: cs) then [] else c :: takeUntilSep cs sep

/-- JavaScript `s.split(sep)[0]` for a non-empty separator: the substring
before the first occurrence of `sep`, or all of `s` when `sep` does not
occur. Both uses in the source (`signature.split('..')` destructured to
its first element, and `url.split('#')[0]`) consume only this first
element. -/
def jsSplitHead (s : String) (sep : String) : String :=
  String.mk (takeUntilSep s.data sep.data)

/-- JSON values, as produced by `JSON.parse` on the decoded JWS header
segment. -/
inductive Json where
  | null : Json
  | bool : Bool → Json
  | num : Int → Json
  | str : String → Json
  | arr : List Json → Json
  | obj : List (String × Json) → Json

/-- JavaScript property access `j.k` on a parsed JSON value: a lookup on
an object, `undefined` (here `none`) on anything else, including arrays,
whose own properties are numeric indices only. -/
def Json.getField : Json → String → Option Json
  | Json.obj fields, k => fields.lookup k
  | _, _ => none

/-- `Object.keys(j).length` for the parsed JSON values on which the code
reaches it: the number of properties of an object, the number of indices
of an array. -/
def Json.numKeys : Json → Nat
  | Json.obj fields => fields.length
  | Json.arr xs => xs.length
  | _ => 0

/-- The guard `header && typeof header === 'object'`: arrays and objects
pass, `null` is falsy, and primitives are not of type object. -/
def jsObjectLike : Json → Bool
  | Json.obj _ => true
  | Json.arr _ => true
  | _ => false

/-- The check `header.alg === 'SchnorrES256K'`. -/
def algOk (header : Json) : Bool :=
  match header.getField "alg" with
  | some (Json.str s) => s == "SchnorrES256K"
  | _ => false

/-- The check `header.b64 === false`. -/
def b64Ok (header : Json) : Bool :=
  match header.getField "b64" with
  | some (Json.bool b) => b == false
  | _ => false

/-- The check `Array.isArray(header.crit) && header.crit.length === 1 &&
header.crit[0] === 'b64'`. -/
def critOk (header : Json) : Bool :=
  match header.getField "crit" with
  | some (Json.arr [Json.str s]) => s == "b64"
  | _ => false

/-- The conjunction of the three header parameter checks that the
verifier negates. -/
def headerChecksPass (header : Json) : Bool :=
  algOk header && b64Ok header && critOk header

/-- The errors the verify closure can raise, in source order of the
throwing sites. -/
inductive VerifyError where
  | noPublicKey : VerifyError
  | headerParse : VerifyError
  | invalidHeader : VerifyError
  | invalidHeaderParameters : VerifyError
deriving DecidableEq

/-- The typed-buffer-view triple `{buffer, byteOffset, length}` that the
sign and verify closures receive as `data`. -/
structure TypedView where
  buffer : List Nat
  byteOffset : Nat
  length : Nat

/-- `Buffer.from(data.buffer, data.byteOffset, data.length)`: the byte
sub-range of the underlying buffer selected by the view. -/
def TypedView.slice (v : TypedView) : List Nat :=
  (v.buffer.drop v.byteOffset).take v.length

/-- The verify closure produced by `joseVerifierFactory`.
`parseHeader` models `JSON.parse(base64url.decode encodedHeader)`
(`none` for a raised parse failure); `verifyDetachedOk` models the
external primitive `SchnorrES256K.verifyDetached` applied to
`(signature, payload, key.publicKeyJwk)` (`false` for a raised failure,
which the closure catches and converts to a `false` result). -/
def verify (parseHeader : String → Option Json)
    (verifyDetachedOk : String → List Nat → JsVal → Bool)
    (key : VerificationKey) (data : TypedView) (signature : String) :
    Except VerifyError Bool :=
  if jsTruthy key.publicKeyJwk = false then Except.error VerifyError.noPublicKey
  else
    match parseHeader (jsSplitHead signature "..") with
    | none => Except.error VerifyError.headerParse
    | some header =>
      if jsObjectLike header = false then Except.error VerifyError.invalidHeader
      else if !(headerChecksPass header) && header.numKeys == 3 then
        Except.error VerifyError.invalidHeaderParameters
      else Except.ok (verifyDetachedOk signature data.slice key.publicKeyJwk)

/-- The errors the sign closure can raise. -/
inductive SignError where
  | noPrivateKey : SignError
  | primitiveFailure : String → SignError
deriving DecidableEq

/-- The fixed detached-JWS header attached by the signer. -/
def joseHeader : Json :=
  Json.obj [("alg", Json.str "SchnorrES256K"), ("b64", Json.bool false),
    ("crit", Json.arr [Json.str "b64"])]

/-- The sign closure produced by `joseSignerFactory`: with a falsy
`privateKeyJwk` it raises without touching the primitive; otherwise it
invokes `SchnorrES256K.signDetached` (a parameter here) on the sliced
payload, the private key and the fixed header. -/
def sign (signDetached : List Nat → JsVal → Json → Except String String)
    (key : VerificationKey) (data : TypedView) : Except SignError String :=
  if jsTruthy key.privateKeyJwk = false then Except.error SignError.noPrivateKey
  else
    match signDetached data.slice key.privateKeyJwk joseHeader with
    | Except.ok s => Except.ok s
    | Except.error e => Except.error (SignError.primitiveFailure e)

/-- The truthy values that `contexts[url]` can produce. The first six
are modelled from the spec: the five pre-loaded JSON context documents
(`contexts/did-v1.json`, `contexts/did-v0.11.json`,
`contexts/security-v1.json`, `contexts/security-v2.json`,
`contexts/schnorr-v1.json`) and the fixed example DID document
(`didDoc`) are required JSON files that are not part of the source under
review; their contents are irrelevant to the loader logic, so they are
modelled as distinct abstract tokens. `protoMember` is the truthy value
(a function, or the prototype object itself for `__proto__`) that the
object-literal bracket lookup inherits from `Object.prototype` when the
URL happens to be one of its property names, carried with that name. -/
inductive ContextDocument where
  | didV1 : ContextDocument
  | didV011 : ContextDocument
  | securityV1 : ContextDocument
  | securityV2 : ContextDocument
  | schnorrV1 : ContextDocument
  | exampleDidDoc : ContextDocument
  | protoMember : String → ContextDocument
deriving DecidableEq

/-- The record returned by the document loader. -/
structure LoaderResult where
  contextUrl : Option String
  document : ContextDocument
  documentUrl : String
deriving DecidableEq

/-- The property names that every plain JavaScript object literal
inherits from `Object.prototype` (the standard methods together with the
Annex B accessors present in Node), each bound to a truthy value. -/
def objectPrototypeKeys : List String :=
  ["constructor", "hasOwnProperty", "isPrototypeOf", "propertyIsEnumerable",
   "toLocaleString", "toString", "valueOf", "__proto__", "__defineGetter__",
   "__defineSetter__", "__lookupGetter__", "__lookupSetter__"]

/-- The lookup `contexts[url]` on the context-table object literal: an
own property for the five fixed URLs, but — because bracket access on a
plain object walks the prototype chain — also a truthy inherited member
for every `Object.prototype` property name; `undefined` (`none`)
otherwise. -/
def contexts (url : String) : Option ContextDocument :=
  if url == "https://www.w3.org/ns/did/v1" then some ContextDocument.didV1
  else if url == "https://w3id.org/did/v1" then some ContextDocument.didV011
  else if url == "https://w3id.org/security/v1" then some ContextDocument.securityV1
  else if url == "https://w3id.org/security/v2" then some ContextDocument.securityV2
  else if url == "https://identity.foundation/SchnorrSecp256k1Signature2019/contexts/schnorr-v1.json"
    then some ContextDocument.schnorrV1
  else if objectPrototypeKeys.contains url then some (ContextDocument.protoMember url)
  else none

/-- The custom JSON-LD document loader: table hit, then the fixed example
DID identifier compared against the URL stripped of any `#` fragment,
else a raised unsupported-context error carrying the URL. -/
def customLoader (url : String) : Except String LoaderResult :=
  match contexts url with
  | some context =>
    Except.ok { contextUrl := none, document := context, documentUrl := url }
  | none =>
    if jsSplitHead url "#" == "did:example:123" then
      Except.ok { contextUrl := none, document := ContextDocument.exampleDidDoc
                  , documentUrl := url }
    else Except.error ("No custom context support for " ++ url)

instance instDecEqExcept {e a : Type} [DecidableEq e] [DecidableEq a] :
    DecidableEq (Except e a) := fun x y =>
  match x, y with
  | Except.ok xa, Except.ok ya =>
    if h : xa = ya then isTrue (congrArg Except.ok h)
    else isFalse (fun hh => h (Except.ok.inj hh))
  | Except.ok _, Except.error _ => isFalse (fun hh => Except.noConfusion hh)
  | Except.error _, Except.ok _ => isFalse (fun hh => Except.noConfusion hh)
  | Except.error xe, Except.error ye =>
    if h : xe = ye then isTrue (congrArg Except.error h)
    else isFalse (fun hh => h (Except.error.inj hh))

/-- Deleting a property removes it: the erased object never reports the
erased key as present. -/
theorem Jwk.hasKey_erase_self (j : Jwk) (k : String) :
    (Jwk.erase j k).hasKey k = false := by
  induction j with
  | nil => rfl
  | cons p t ih =>
    by_cases h : p.1 == k <;>
      simp_all [Jwk.erase, Jwk.hasKey, List.filter_cons, List.any_cons]

/-- Property deletion distributes over concatenation of property lists. -/
theorem Jwk.erase_append (a b : Jwk) (k : String) :
    Jwk.erase (a ++ b) k = Jwk.erase a k ++ Jwk.erase b k := by
  simp [Jwk.erase, List.filter_append]

/-- Property deletion is idempotent. -/
theorem Jwk.erase_erase_self (j : Jwk) (k : String) :
    Jwk.erase (Jwk.erase j k) k = Jwk.erase j k := by
  induction j with
  | nil => rfl
  | cons p t ih =>
    by_cases h : p.1 == k <;>
      simp_all [Jwk.erase, List.filter_cons]

/-- Once the verifier has a truthy public key, the only errors it can
raise come from header parsing or header validation. -/
theorem verify_error_classify (parseHeader : String → Option Json)
    (vOk : String → List Nat → JsVal → Bool) (key : VerificationKey)
    (data : TypedView) (signature : String) (e : VerifyError)
    (hpub : jsTruthy key.publicKeyJwk = true)
    (h : verify parseHeader vOk key data signature = Except.error e) :
    e = VerifyError.headerParse ∨ e = VerifyError.invalidHeader
      ∨ e = VerifyError.invalidHeaderParameters := by
  rcases hp : parseHeader (jsSplitHead signature "..") with _ | header
  · simp [verify, hpub, hp] at h
    simp [h]
  · cases hob : jsObjectLike header
    · simp [verify, hpub, hp, hob] at h
      simp [h]
    · cases hc : (!(headerChecksPass header) && (header.numKeys == 3))
      · simp [verify, hpub, hp, hob, hc] at h
      · simp [verify, hpub, hp, hob, hc] at h
        simp [h]

/-- C1: for every key with public key material and every signature whose
header segment decodes to an object-typed value, verify raises the
invalid-header-parameters error if and only if the decoded header fails
the parameter checks (alg is the string SchnorrES256K, b64 is the boolean
false, crit is exactly the one-element array of the string b64) and the
header has exactly 3 keys. -/
theorem claim_C1_invalidHeaderParameters_iff (parseHeader : String → Option Json)
    (vOk : String → List Nat → JsVal → Bool) (key : VerificationKey)
    (data : TypedView) (signature : String) (header : Json)
    (hpub : jsTruthy key.publicKeyJwk = true)
    (hparse : parseHeader (jsSplitHead signature "..") = some header)
    (hobj : jsObjectLike header = true) :
    verify parseHeader vOk key data signature
        = Except.error VerifyError.invalidHeaderParameters
      ↔ ¬(algOk header = true ∧ b64Ok header = true ∧ critOk header = true)
          ∧ header.numKeys = 3 := by
  have key_iff : (verify parseHeader vOk key data signature
      = Except.error VerifyError.invalidHeaderParameters)
      ↔ ((!(headerChecksPass header)) && (header.numKeys == 3)) = true := by
    cases hc : ((!(headerChecksPass header)) && (header.numKeys == 3))
    · simp [verify, hpub, hparse, hobj, hc]
    · simp [verify, hpub, hparse, hobj, hc]
  have hbr : ∀ (a b c : Bool) (n : Nat),
      ((!(a && b && c)) && (n == 3)) = true
        ↔ ¬(a = true ∧ b = true ∧ c = true) ∧ n = 3 := by
    intro a b c n
    cases a <;> cases b <;> cases c <;> simp
  rw [key_iff]
  simp only [headerChecksPass]
  exact hbr _ _ _ _

/-- C1 witness: a header decoding to three keys with a wrong alg raises
the invalid-header-parameters error, while the correct three claims plus
an extra key pass the validation. -/
theorem claim_C1_witness :
    verify
        (fun _ => some (Json.obj [("alg", Json.str "Wrong"),
          ("b64", Json.bool false), ("crit", Json.arr [Json.str "b64"])]))
        (fun _ _ _ => true)
        (VerificationKey.mk "i" "t" "c" JsVal.undef (JsVal.obj [("kty", "EC")]))
        (TypedView.mk [] 0 0) "h..s"
      = Except.error VerifyError.invalidHeaderParameters
    ∧ verify
        (fun _ => some (Json.obj [("alg", Json.str "SchnorrES256K"),
          ("b64", Json.bool false), ("crit", Json.arr [Json.str "b64"]),
          ("extra", Json.str "x")]))
        (fun _ _ _ => true)
        (VerificationKey.mk "i" "t" "c" JsVal.undef (JsVal.obj [("kty", "EC")]))
        (TypedView.mk [] 0 0) "h..s"
      ≠ Except.error VerifyError.invalidHeaderParameters := by
  constructor
  · exact (claim_C1_invalidHeaderParameters_iff
      (fun _ => some (Json.obj [("alg", Json.str "Wrong"),
        ("b64", Json.bool false), ("crit", Json.arr [Json.str "b64"])]))
      (fun _ _ _ => true)
      (VerificationKey.mk "i" "t" "c" JsVal.undef (JsVal.obj [("kty", "EC")]))
      (TypedView.mk [] 0 0) "h..s"
      (Json.obj [("alg", Json.str "Wrong"), ("b64", Json.bool false),
        ("crit", Json.arr [Json.str "b64"])])
      rfl rfl rfl).mpr (by decide)
  · intro hcontra
    have h := (claim_C1_invalidHeaderParameters_iff
      (fun _ => some (Json.obj [("alg", Json.str "SchnorrES256K"),
        ("b64", Json.bool false), ("crit", Json.arr [Json.str "b64"]),
        ("extra", Json.str "x")]))
      (fun _ _ _ => true)
      (VerificationKey.mk "i" "t" "c" JsVal.undef (JsVal.obj [("kty", "EC")]))
      (TypedView.mk [] 0 0) "h..s"
      (Json.obj [("alg", Json.str "SchnorrES256K"), ("b64", Json.bool false),
        ("crit", Json.arr [Json.str "b64"]), ("extra", Json.str "x")])
      rfl rfl rfl).mp hcontra
    exact h.1 (by decide)

/-- C2: for every key with public key material and a signature whose
header segment decodes to a header passing the parameter checks, verify
returns exactly the boolean outcome of the external verification
primitive (true when it completes, false when it raises) and never an
error; moreover any error it does raise for such a key is a header-parse
or header-validation error, never a converted primitive failure. -/
theorem claim_C2_primitive_result (parseHeader : String → Option Json)
    (vOk : String → List Nat → JsVal → Bool) (key : VerificationKey)
    (data : TypedView) (signature : String) (header : Json)
    (hpub : jsTruthy key.publicKeyJwk = true)
    (hparse : parseHeader (jsSplitHead signature "..") = some header)
    (hchecks : headerChecksPass header = true) :
    verify parseHeader vOk key data signature
      = Except.ok (vOk signature data.slice key.publicKeyJwk)
    ∧ ∀ (p : String → Option Json) (s : String) (e : VerifyError),
        verify p vOk key data s = Except.error e →
        e = VerifyError.headerParse ∨ e = VerifyError.invalidHeader
          ∨ e = VerifyError.invalidHeaderParameters := by
  constructor
  · have hobj : jsObjectLike header = true := by
      have halg : algOk header = true := by
        simp [headerChecksPass] at hchecks
        exact hchecks.1.1
      cases header <;> simp_all [algOk, Json.getField, jsObjectLike]
    simp [verify, hpub, hparse, hobj, hchecks]
  · intro p s e h
    exact verify_error_classify p vOk key data s e hpub h

/-- C2 witness: with the exact fixed header and a succeeding primitive
the verifier returns the boolean true. -/
theorem claim_C2_witness :
    verify (fun _ => some joseHeader) (fun _ _ _ => true)
      (VerificationKey.mk "i" "t" "c" JsVal.undef (JsVal.obj [("kty", "EC")]))
      (TypedView.mk [1] 0 1) "h..s"
      = Except.ok true := by
  have h := claim_C2_primitive_result (fun _ => some joseHeader)
    (fun _ _ _ => true)
    (VerificationKey.mk "i" "t" "c" JsVal.undef (JsVal.obj [("kty", "EC")]))
    (TypedView.mk [1] 0 1) "h..s" joseHeader rfl rfl (by decide)
  exact h.1

/-- C3 counterexample: a key constructed with only private key material
derives public key material, so its verify call proceeds past the
missing-public-key branch; with a parseable correct header and a
succeeding primitive it returns the boolean true instead of raising the
no-public-key error. -/
theorem claim_C3_counterexample :
    verify (fun _ => some joseHeader) (fun _ _ _ => true)
        (mkKey (fun _ => "fp")
          (KeyOptions.mk none none "did:example:123"
            (JsVal.obj [("kty", "EC"), ("crv", "secp256k1"),
              ("x", "ax"), ("y", "ay"), ("d", "priv")])
            JsVal.undef))
        (TypedView.mk [1, 2, 3] 0 3) "eyJ..sig"
        ≠ Except.error VerifyError.noPublicKey
    ∧ verify (fun _ => some joseHeader) (fun _ _ _ => true)
        (mkKey (fun _ => "fp")
          (KeyOptions.mk none none "did:example:123"
            (JsVal.obj [("kty", "EC"), ("crv", "secp256k1"),
              ("x", "ax"), ("y", "ay"), ("d", "priv")])
            JsVal.undef))
        (TypedView.mk [1, 2, 3] 0 3) "eyJ..sig"
        = Except.ok true := by
  constructor
  · decide
  · decide

/-- C3 amended: the verifier raises the no-public-key error, for every
input, exactly for keys whose constructed public key material is falsy,
which for constructed keys means an explicitly supplied null
publicKeyJwk; a key built from only private material instead derives a
truthy public object. -/
theorem claim_C3_amended_noPublicKey (getKid : Jwk → String) (options : KeyOptions)
    (parseHeader : String → Option Json) (vOk : String → List Nat → JsVal → Bool)
    (data : TypedView) (signature : String)
    (h : options.publicKeyJwk = JsVal.null) :
    verify parseHeader vOk (mkKey getKid options) data signature
      = Except.error VerifyError.noPublicKey := by
  simp [verify, mkKey, h, jsTruthy]

/-- C3 amended witness: an explicitly null publicKeyJwk makes verify
raise the no-public-key error. -/
theorem claim_C3_amended_witness :
    (KeyOptions.mk none none "did:example:123"
        (JsVal.obj [("kty", "EC"), ("d", "priv")]) JsVal.null).publicKeyJwk
      = JsVal.null
    ∧ verify (fun _ => some joseHeader) (fun _ _ _ => true)
        (mkKey (fun _ => "fp")
          (KeyOptions.mk none none "did:example:123"
            (JsVal.obj [("kty", "EC"), ("d", "priv")]) JsVal.null))
        (TypedView.mk [] 0 0) "a..b"
      = Except.error VerifyError.noPublicKey :=
  ⟨rfl, claim_C3_amended_noPublicKey (fun _ => "fp")
    (KeyOptions.mk none none "did:example:123"
      (JsVal.obj [("kty", "EC"), ("d", "priv")]) JsVal.null)
    (fun _ => some joseHeader) (fun _ _ _ => true)
    (TypedView.mk [] 0 0) "a..b" rfl⟩

/-- C4: a key constructed without private key material yields a signer
whose sign operation fails with the no-private-key error for every
payload and for every external signing primitive, so the primitive is
never consulted. -/
theorem claim_C4_sign_noPrivateKey (getKid : Jwk → String) (options : KeyOptions)
    (h : options.privateKeyJwk = JsVal.undef) :
    ∀ (signDetached : List Nat → JsVal → Json → Except String String)
      (data : TypedView),
      sign signDetached (mkKey getKid options) data
        = Except.error SignError.noPrivateKey := by
  intro sd data
  simp [sign, mkKey, h, jsTruthy]

/-- C4 witness: a public-only key refuses to sign. -/
theorem claim_C4_witness :
    (KeyOptions.mk none none "did:example:123" JsVal.undef
        (JsVal.obj [("kty", "EC")])).privateKeyJwk = JsVal.undef
    ∧ sign (fun _ _ _ => Except.ok "sig")
        (mkKey (fun _ => "fp")
          (KeyOptions.mk none none "did:example:123" JsVal.undef
            (JsVal.obj [("kty", "EC")])))
        (TypedView.mk [1, 2] 0 2)
      = Except.error SignError.noPrivateKey :=
  ⟨rfl, claim_C4_sign_noPrivateKey (fun _ => "fp")
    (KeyOptions.mk none none "did:example:123" JsVal.undef
      (JsVal.obj [("kty", "EC")])) rfl (fun _ _ _ => Except.ok "sig")
    (TypedView.mk [1, 2] 0 2)⟩

/-- C5: constructing a key from only a private JWK containing the field d
yields public key material equal to that JWK with d removed, and the
instance fingerprint agrees with the static fingerprint of that derived
public key material. -/
theorem claim_C5_derived_public_and_fingerprint (getKid : Jwk → String)
    (options : KeyOptions) (k : Jwk)
    (hpriv : options.privateKeyJwk = JsVal.obj k)
    (hd : k.hasKey "d" = true)
    (hpub : options.publicKeyJwk = JsVal.undef) :
    (mkKey getKid options).publicKeyJwk = JsVal.obj (Jwk.erase k "d")
    ∧ (mkKey getKid options).fingerprint getKid
      = fingerprintFromPublicKey getKid ((mkKey getKid options).publicKeyJwk) := by
  constructor
  · simp [mkKey, hpriv, hpub, JsVal.spread]
  · rfl

/-- C5 witness: a concrete private JWK loses exactly its d field, and the
two fingerprint computations agree on the result (the thumbprint
collaborator is instantiated with the comma-joined key names, so the
result is sensitive to the remaining fields). -/
theorem claim_C5_witness :
    (mkKey (fun j => String.intercalate "," (j.map (fun p => p.1)))
        (KeyOptions.mk none none "did:example:123"
          (JsVal.obj [("kty", "EC"), ("d", "priv"), ("x", "ax")]) JsVal.undef)).publicKeyJwk
      = JsVal.obj [("kty", "EC"), ("x", "ax")]
    ∧ (mkKey (fun j => String.intercalate "," (j.map (fun p => p.1)))
        (KeyOptions.mk none none "did:example:123"
          (JsVal.obj [("kty", "EC"), ("d", "priv"), ("x", "ax")]) JsVal.undef)).fingerprint
        (fun j => String.intercalate "," (j.map (fun p => p.1)))
      = fingerprintFromPublicKey (fun j => String.intercalate "," (j.map (fun p => p.1)))
          (JsVal.obj [("kty", "EC"), ("x", "ax")]) := by
  have h := claim_C5_derived_public_and_fingerprint
    (fun j => String.intercalate "," (j.map (fun p => p.1)))
    (KeyOptions.mk none none "did:example:123"
      (JsVal.obj [("kty", "EC"), ("d", "priv"), ("x", "ax")]) JsVal.undef)
    [("kty", "EC"), ("d", "priv"), ("x", "ax")] rfl (by decide) rfl
  refine ⟨by decide, ?_⟩
  rw [h.2, h.1]
  decide

/-- C6: the static fingerprint ignores a kid property, whether added or
removed, and the instance fingerprint of two keys whose public material
differs only by a trailing kid property agrees; determinism holds because
the computation is a function of the public material alone. -/
theorem claim_C6_fingerprint_kid_invariant (getKid : Jwk → String) (k : Jwk)
    (v : String) (key1 key2 : VerificationKey)
    (h1 : key1.publicKeyJwk = JsVal.obj (k ++ [("kid", v)]))
    (h2 : key2.publicKeyJwk = JsVal.obj k) :
    fingerprintFromPublicKey getKid (JsVal.obj (k ++ [("kid", v)]))
      = fingerprintFromPublicKey getKid (JsVal.obj k)
    ∧ fingerprintFromPublicKey getKid (JsVal.obj (Jwk.erase k "kid"))
      = fingerprintFromPublicKey getKid (JsVal.obj k)
    ∧ key1.fingerprint getKid = key2.fingerprint getKid := by
  have ha : Jwk.erase (k ++ [("kid", v)]) "kid" = Jwk.erase k "kid" := by
    simp [Jwk.erase_append, Jwk.erase]
  refine ⟨?_, ?_, ?_⟩
  · simp [fingerprintFromPublicKey, JsVal.spread, ha]
  · simp [fingerprintFromPublicKey, JsVal.spread, Jwk.erase_erase_self]
  · simp [VerificationKey.fingerprint, h1, h2, JsVal.spread, ha]

/-- C6 witness: adding a kid to a concrete public JWK changes neither the
static nor the instance fingerprint, for a thumbprint collaborator that
is sensitive to every remaining field. -/
theorem claim_C6_witness :
    fingerprintFromPublicKey (fun j => String.intercalate "," (j.map (fun p => p.1)))
        (JsVal.obj [("kty", "EC"), ("kid", "label")])
      = fingerprintFromPublicKey (fun j => String.intercalate "," (j.map (fun p => p.1)))
        (JsVal.obj [("kty", "EC")])
    ∧ (VerificationKey.mk "i" "t" "c" JsVal.undef
        (JsVal.obj [("kty", "EC"), ("kid", "label")])).fingerprint
        (fun j => String.intercalate "," (j.map (fun p => p.1)))
      = (VerificationKey.mk "i" "t" "c" JsVal.undef
        (JsVal.obj [("kty", "EC")])).fingerprint
        (fun j => String.intercalate "," (j.map (fun p => p.1))) := by
  have h := claim_C6_fingerprint_kid_invariant
    (fun j => String.intercalate "," (j.map (fun p => p.1)))
    [("kty", "EC")] "label"
    (VerificationKey.mk "i" "t" "c" JsVal.undef
      (JsVal.obj [("kty", "EC"), ("kid", "label")]))
    (VerificationKey.mk "i" "t" "c" JsVal.undef
      (JsVal.obj [("kty", "EC")])) rfl rfl
  exact ⟨h.1, h.2.2⟩

/-- C7 counterexample: the URL toString is neither a context-table URL
nor the example DID identifier, so by the claim the loader should raise
the no-custom-context-support error; instead the object-literal lookup
finds the truthy inherited Object.prototype member and the loader
returns it as the loaded document. -/
theorem claim_C7_counterexample :
    customLoader "toString"
      ≠ Except.error ("No custom context support for " ++ "toString")
    ∧ customLoader "toString"
      = Except.ok { contextUrl := none,
                    document := ContextDocument.protoMember "toString",
                    documentUrl := "toString" } := by
  constructor
  · decide
  · decide

/-- C7 amended: the document loader returns the pre-loaded document with
a null contextUrl and the requested documentUrl for every URL on which
the table lookup is truthy — the five fixed context URLs, but also every
Object.prototype property name such as toString, for which the inherited
member is returned as the document instead of an error being raised;
otherwise, when the portion of the URL before any fragment equals the
fixed example DID identifier, it returns the example DID document
regardless of fragment; otherwise it raises the
no-custom-context-support error naming the URL. -/
theorem claim_C7_amended_resolution (url : String) :
    (∀ d, contexts url = some d →
      customLoader url
        = Except.ok { contextUrl := none, document := d, documentUrl := url })
    ∧ (objectPrototypeKeys.contains url = true →
      customLoader url
        = Except.ok { contextUrl := none,
                      document := ContextDocument.protoMember url,
                      documentUrl := url })
    ∧ (contexts url = none → jsSplitHead url "#" = "did:example:123" →
      customLoader url
        = Except.ok { contextUrl := none, document := ContextDocument.exampleDidDoc,
                      documentUrl := url })
    ∧ (contexts url = none → jsSplitHead url "#" ≠ "did:example:123" →
      customLoader url = Except.error ("No custom context support for " ++ url)) := by
  refine ⟨?_, ?_, ?_, ?_⟩
  · intro d h
    simp [customLoader, h]
  · intro h
    have hmem : url ∈ objectPrototypeKeys := by
      simpa using h
    have hc : contexts url = some (ContextDocument.protoMember url) := by
      simp only [objectPrototypeKeys, List.mem_cons, List.not_mem_nil, or_false] at hmem
      rcases hmem with rfl | rfl | rfl | rfl | rfl | rfl | rfl | rfl | rfl | rfl | rfl | rfl <;>
        decide
    simp [customLoader, hc]
  · intro h hd
    simp [customLoader, h, hd]
  · intro h hd
    simp [customLoader, h, hd]

/-- C7 amended witness: resolution of a table URL, of a prototype
property name, of the example DID reference with a fragment, and of an
unknown URL. -/
theorem claim_C7_amended_witness :
    customLoader "https://w3id.org/security/v2" =
      Except.ok { contextUrl := none, document := ContextDocument.securityV2,
                  documentUrl := "https://w3id.org/security/v2" }
    ∧ customLoader "toString" =
      Except.ok { contextUrl := none, document := ContextDocument.protoMember "toString",
                  documentUrl := "toString" }
    ∧ customLoader "did:example:123#key-1" =
      Except.ok { contextUrl := none, document := ContextDocument.exampleDidDoc,
                  documentUrl := "did:example:123#key-1" }
    ∧ customLoader "https://unknown.example/ctx" =
      Except.error "No custom context support for https://unknown.example/ctx" := by
  refine ⟨(claim_C7_amended_resolution _).1 ContextDocument.securityV2 (by decide),
    (claim_C7_amended_resolution _).2.1 (by decide),
    (claim_C7_amended_resolution _).2.2.1 (by decide) (by decide),
    ?_⟩
  have h := (claim_C7_amended_resolution "https://unknown.example/ctx").2.2.2
    (by decide) (by decide)
  exact h

/-- C8 counterexample: an explicitly supplied empty-string id is falsy in
the defaulting expression, so it is not used unchanged; the constructed
id falls back to the controller-hash-fingerprint default. -/
theorem claim_C8_counterexample :
    (KeyOptions.mk (some "") none "did:example:123" JsVal.undef
        (JsVal.obj [("kty", "EC")])).id = some ""
    ∧ (mkKey (fun _ => "FNGR")
        (KeyOptions.mk (some "") none "did:example:123" JsVal.undef
          (JsVal.obj [("kty", "EC")]))).id ≠ ""
    ∧ (mkKey (fun _ => "FNGR")
        (KeyOptions.mk (some "") none "did:example:123" JsVal.undef
          (JsVal.obj [("kty", "EC")]))).id = "did:example:123#FNGR" := by
  refine ⟨rfl, by decide, by decide⟩

/-- C8 amended: with no explicit id, or with an explicit but falsy empty
id, the constructed id is the controller joined by a hash mark to the
instance fingerprint; an explicit non-empty id is used unchanged. -/
theorem claim_C8_amended_id_defaulting (getKid : Jwk → String) (options : KeyOptions) :
    (options.id = none ∨ options.id = some "" →
      (mkKey getKid options).id
        = options.controller ++ "#" ++ (mkKey getKid options).fingerprint getKid)
    ∧ (∀ s, options.id = some s → s ≠ "" →
      (mkKey getKid options).id = s) := by
  constructor
  · rintro (h | h) <;> simp [mkKey, jsOrString, h, VerificationKey.fingerprint]
  · intro s h hs
    simp [mkKey, jsOrString, h, hs]

/-- C8 amended witness: the default id for a concrete controller, and an
explicit non-empty id kept unchanged. -/
theorem claim_C8_amended_witness :
    (mkKey (fun _ => "FNGR")
        (KeyOptions.mk none none "did:example:123" JsVal.undef
          (JsVal.obj [("kty", "EC")]))).id
      = "did:example:123" ++ "#"
        ++ (mkKey (fun _ => "FNGR")
            (KeyOptions.mk none none "did:example:123" JsVal.undef
              (JsVal.obj [("kty", "EC")]))).fingerprint (fun _ => "FNGR")
    ∧ (mkKey (fun _ => "FNGR")
        (KeyOptions.mk (some "custom") none "did:example:123" JsVal.undef
          (JsVal.obj [("kty", "EC")]))).id = "custom" :=
  ⟨(claim_C8_amended_id_defaulting (fun _ => "FNGR")
      (KeyOptions.mk none none "did:example:123" JsVal.undef
        (JsVal.obj [("kty", "EC")]))).1 (Or.inl rfl),
   (claim_C8_amended_id_defaulting (fun _ => "FNGR")
      (KeyOptions.mk (some "custom") none "did:example:123" JsVal.undef
        (JsVal.obj [("kty", "EC")]))).2 "custom" rfl (by decide)⟩

/-- C9 counterexample: an explicitly supplied publicKeyJwk containing the
private exponent d is stored unchanged, so the constructed public key
material contains d. -/
theorem claim_C9_counterexample :
    JsVal.hasField
      (mkKey (fun _ => "fp")
        (KeyOptions.mk none none "did:example:123" JsVal.undef
          (JsVal.obj [("kty", "EC"), ("d", "secret")]))).publicKeyJwk "d" = true := by
  decide

/-- C9 amended: constructed public key material is free of the field d
whenever it is derived from the private key (publicKeyJwk omitted), and
whenever the explicitly supplied publicKeyJwk is itself free of d; only
an explicitly supplied object containing d makes it appear. -/
theorem claim_C9_amended_no_d (getKid : Jwk → String) (options : KeyOptions) :
    (options.publicKeyJwk = JsVal.undef →
      JsVal.hasField (mkKey getKid options).publicKeyJwk "d" = false)
    ∧ (∀ j, options.publicKeyJwk = JsVal.obj j → Jwk.hasKey j "d" = false →
      JsVal.hasField (mkKey getKid options).publicKeyJwk "d" = false) := by
  constructor
  · intro h
    simp [mkKey, h, JsVal.hasField, Jwk.hasKey_erase_self]
  · intro j h hj
    simp [mkKey, h, JsVal.hasField, hj]

/-- C9 amended witness: derivation from a private key with d strips d,
and a d-free supplied public key stays d-free. -/
theorem claim_C9_amended_witness :
    JsVal.hasField
      (mkKey (fun _ => "fp")
        (KeyOptions.mk none none "did:example:123"
          (JsVal.obj [("kty", "EC"), ("d", "secret")]) JsVal.undef)).publicKeyJwk "d"
      = false
    ∧ JsVal.hasField
      (mkKey (fun _ => "fp")
        (KeyOptions.mk none none "did:example:123" JsVal.undef
          (JsVal.obj [("kty", "EC")]))).publicKeyJwk "d" = false :=
  ⟨(claim_C9_amended_no_d (fun _ => "fp")
      (KeyOptions.mk none none "did:example:123"
        (JsVal.obj [("kty", "EC"), ("d", "secret")]) JsVal.undef)).1 rfl,
   (claim_C9_amended_no_d (fun _ => "fp")
      (KeyOptions.mk none none "did:example:123" JsVal.undef
        (JsVal.obj [("kty", "EC")]))).2 [("kty", "EC")] rfl (by decide)⟩

/-- C10: when publicKeyJwk is omitted the constructed key holds the
spread of privateKeyJwk with d removed (the empty object when both are
omitted), which is truthy; consequently a no-public-key verification
error for a constructed key forces an explicitly supplied falsy
non-undefined publicKeyJwk, which in this model is null. -/
theorem claim_C10_public_defined_when_omitted (getKid : Jwk → String)
    (options : KeyOptions) :
    (options.publicKeyJwk = JsVal.undef →
      (mkKey getKid options).publicKeyJwk
          = JsVal.obj (Jwk.erase (JsVal.spread options.privateKeyJwk) "d")
        ∧ jsTruthy (mkKey getKid options).publicKeyJwk = true
        ∧ (options.privateKeyJwk = JsVal.undef →
            (mkKey getKid options).publicKeyJwk = JsVal.obj []))
    ∧ ∀ (parseHeader : String → Option Json)
        (vOk : String → List Nat → JsVal → Bool)
        (data : TypedView) (signature : String),
        verify parseHeader vOk (mkKey getKid options) data signature
          = Except.error VerifyError.noPublicKey →
        options.publicKeyJwk = JsVal.null := by
  constructor
  · intro h
    refine ⟨by simp [mkKey, h], by simp [mkKey, h, jsTruthy], ?_⟩
    intro hp
    simp [mkKey, h, hp, JsVal.spread, Jwk.erase]
  · intro p vOk data signature h
    rcases hopts : options.publicKeyJwk with _ | _ | j
    · have hpub : jsTruthy (mkKey getKid options).publicKeyJwk = true := by
        simp [mkKey, hopts, jsTruthy]
      have := verify_error_classify p vOk (mkKey getKid options) data signature
        VerifyError.noPublicKey hpub h
      simp at this
    · rfl
    · have hpub : jsTruthy (mkKey getKid options).publicKeyJwk = true := by
        simp [mkKey, hopts, jsTruthy]
      have := verify_error_classify p vOk (mkKey getKid options) data signature
        VerifyError.noPublicKey hpub h
      simp at this

/-- C10 witness: a key built from a private JWK with publicKeyJwk omitted
gets a defined d-free object, and a no-public-key error observed on a
constructed key pins the supplied publicKeyJwk to null. -/
theorem claim_C10_witness :
    ((mkKey (fun _ => "fp")
        (KeyOptions.mk none none "did:example:123"
          (JsVal.obj [("kty", "EC"), ("d", "secret")]) JsVal.undef)).publicKeyJwk
      = JsVal.obj [("kty", "EC")])
    ∧ (KeyOptions.mk none none "did:example:123"
        (JsVal.obj [("kty", "EC"), ("d", "secret")]) JsVal.null).publicKeyJwk
      = JsVal.null := by
  constructor
  · have h := (claim_C10_public_defined_when_omitted (fun _ => "fp")
      (KeyOptions.mk none none "did:example:123"
        (JsVal.obj [("kty", "EC"), ("d", "secret")]) JsVal.undef)).1 rfl
    rw [h.1]
    decide
  · exact (claim_C10_public_defined_when_omitted (fun _ => "fp")
      (KeyOptions.mk none none "did:example:123"
        (JsVal.obj [("kty", "EC"), ("d", "secret")]) JsVal.null)).2
      (fun _ => some joseHeader) (fun _ _ _ => true)
      (TypedView.mk [] 0 0) "a..b" (by decide)
